import Mathlib

/-!
Verification of the `lobby` crate of the sync-player repository.

The Rust source is shallowly embedded: each Rust item is translated into a
Lean definition of the same name. `async` functions are modelled as pure
state-passing functions (the tokio mutex around the room map serialises all
repository operations, and the actor serialises all connection-map
operations, so the sequential model is faithful per operation).

- `Uuid` values (`RoomId`, `Participant`) are modelled as `Nat`; `Uuid::new_v4`
  and `Utc::now` are modelled as explicit parameters supplying the fresh value.
- `Box<dyn Error>` payloads are modelled as `String`.
- The tokio mpsc/oneshot channels are modelled by the list of commands the
  actor drains and `Option`-valued replies (`none` = reply channel dropped).
-/

/-- `pub type RoomId = Uuid;` (domain.rs). -/
abbrev RoomId := Nat

/-- `pub type Participant = Uuid;` (domain.rs). -/
abbrev Participant := Nat

/-- `pub struct Room` (domain.rs): id, name, participants, capacity,
created_at, created_by. -/
structure Room where
  id : RoomId
  name : String
  participants : List Participant
  capacity : Nat
  created_at : Nat
  created_by : Participant
deriving DecidableEq, Repr

/-- `pub enum RoomError` (domain.rs). The `MessageHandlerError` payload
(`Box<dyn Error>`) is modelled as a `String`. -/
inductive RoomError where
  | RoomFull (room_id : RoomId)
  | NotOwner (room_id : RoomId) (participant : Participant)
  | NotParticipant (room_id : RoomId) (participant : Participant)
  | MessageHandlerError (e : String)
deriving DecidableEq, Repr

/-- `pub enum MessageSenderError` (domain.rs): exactly two variants,
`ParticipantDisconnected(Participant, Box<dyn Error>)` and the transparent
`MessageSenderError(Box<dyn Error>)`. Boxed errors are modelled as `String`. -/
inductive MessageSenderError where
  | ParticipantDisconnected (participant : Participant) (src : String)
  | MessageSenderError (e : String)
deriving DecidableEq, Repr

/-- `pub enum MessageResponse<M>` (domain.rs). The `to` field is rendered
`to_` because `to` is reserved in Lean. -/
inductive MessageResponse (M : Type) where
  | Unicast (to_ : Participant) (msg : M)
  | Broadcast (msg : M)
  | Void
deriving DecidableEq, Repr

/-- `Room::new` (domain.rs): `Uuid::new_v4()` and `Utc::now()` are supplied
as the `freshId` / `now` parameters; `Vec::with_capacity(capacity)` is an
empty vector. -/
def Room.new (freshId : RoomId) (now : Nat) (name : String) (capacity : Nat)
    (participant : Participant) : Room :=
  { id := freshId
    name := name
    participants := []
    capacity := capacity
    created_at := now
    created_by := participant }

/-- `Room::is_full` (domain.rs): `self.participants.len() >= self.capacity`. -/
def Room.is_full (r : Room) : Bool :=
  r.participants.length ≥ r.capacity

/-- `Room::is_participant` (domain.rs): `self.participants.contains(&participant)`. -/
def Room.is_participant (r : Room) (participant : Participant) : Bool :=
  r.participants.contains participant

/-- `Room::join` (domain.rs): fails with `RoomFull` when `is_full`, else
pushes the participant at the end. The Rust method mutates `self`; the
embedding returns the updated room. -/
def Room.join (r : Room) (participant : Participant) : Except RoomError Room :=
  if r.is_full then
    .error (.RoomFull r.id)
  else
    .ok { r with participants := r.participants ++ [participant] }

/-- `Room::leave` (domain.rs): `self.participants.retain(|p| *p != participant_id)`. -/
def Room.leave (r : Room) (participant_id : Participant) : Room :=
  { r with participants := r.participants.filter (fun p => p ≠ participant_id) }

/-- `Room::close` (domain.rs): fails with `NotOwner` unless the requester is
`created_by`; otherwise returns unit with no side effect. -/
def Room.close (r : Room) (participant : Participant) : Except RoomError Unit :=
  if r.created_by ≠ participant then
    .error (.NotOwner r.id participant)
  else
    .ok ()

/-- `Room::handle_message` (domain.rs). The `MessageHandler` trait object is
modelled as a function returning `Except String (MessageResponse Out)`
(its `Err` type rendered as `String`). Checks membership of `from_`, invokes
the handler, validates a `Unicast` target, expands `Broadcast` over the
current participant list, and turns `Void` into no deliveries. -/
def Room.handle_message {In Out : Type}
    (r : Room)
    (msg_handler : Room → Participant → In → Except String (MessageResponse Out))
    (from_ : Participant) (message : In) :
    Except RoomError (List (Participant × Out)) :=
  if ¬ r.is_participant from_ then
    .error (.NotParticipant r.id from_)
  else
    match msg_handler r from_ message with
    | .error e => .error (.MessageHandlerError e)
    | .ok (.Unicast target msg) =>
        if ¬ r.is_participant target then
          .error (.NotParticipant r.id target)
        else
          .ok [(target, msg)]
    | .ok (.Broadcast msg) =>
        .ok (r.participants.map (fun p => (p, msg)))
    | .ok .Void => .ok []

/-! ## infrastructure.rs: InMemoryRoomRepo -/

/-- The `HashMap<RoomId, Room>` inside `InMemoryRoomRepo`, modelled as a
partial map. The surrounding `Arc<Mutex<...>>` serialises operations, so
each operation is a pure state transition. -/
def RepoState := RoomId → Option Room

/-- `InMemoryRoomRepo::new` / `Default`: the empty map. -/
def InMemoryRoomRepo.new : RepoState := fun _ => none

/-- `InMemoryRoomRepo::get` (infrastructure.rs): `guard.get(&room_id).cloned()`
— the caller receives a clone of the stored room, never a live reference. -/
def repoGet (s : RepoState) (room_id : RoomId) : Option Room :=
  s room_id

/-- `InMemoryRoomRepo::save` (infrastructure.rs): `guard.insert(room.id,
room.clone()); Ok(room)` — upsert keyed by `room.id`, returning the room. -/
def repoSave (s : RepoState) (room : Room) : RepoState × Room :=
  (fun k => if k = room.id then some room else s k, room)

/-- `InMemoryRoomRepo::delete` (infrastructure.rs): `guard.remove(&room_id)`. -/
def repoDelete (s : RepoState) (room_id : RoomId) : RepoState :=
  fun k => if k = room_id then none else s k

/-! ## infrastructure.rs: MessageSenderActor -/

/-- Modelled from the spec: the transport layer's connection handle
(`SplitSink<WebSocket, Message>`, an external axum/futures type) offers
`write(frame) -> fails on peer-gone` (§6). The handle is reduced to its one
observable: whether the peer is still there, so whether a write succeeds. -/
structure Sink where
  connected : Bool
deriving DecidableEq, Repr

/-- Modelled from the spec: `sink.send(frame)` performs the write, which
fails exactly when the peer is gone (§6). The error payload is the boxed
axum error rendered as a string. -/
def sinkSend (sink : Sink) (frame : String) : Except String Unit :=
  if sink.connected then .ok () else .error ("connection closed: " ++ frame)

/-- The actor's `HashMap<Participant, SplitSink<WebSocket, Message>>`. -/
def ActorMap := Participant → Option Sink

/-- `HashMap::insert` on the actor map (overwrites an existing mapping). -/
def mapInsert (m : ActorMap) (p : Participant) (sink : Sink) : ActorMap :=
  fun q => if q = p then some sink else m q

/-- `HashMap::remove` on the actor map. -/
def mapRemove (m : ActorMap) (p : Participant) : ActorMap :=
  fun q => if q = p then none else m q

/-- The empty actor map (`map: Default::default()` in `init_actor_proxy`). -/
def ActorMap.empty : ActorMap := fun _ => none

/-- `pub(crate) enum Command<M>` (infrastructure.rs). The oneshot
`result_sender` fields are modelled by the replies the processing loop emits
(`MessageSenderActor.process`), not stored in the command. -/
inductive Command (M : Type) where
  | RegisterParticipant (participant : Participant) (ws_sender : Sink)
  | UnregisterParticipant (participant : Participant)
  | SendMessage (participant : Participant) (message : M)

instance {ε α : Type} [DecidableEq ε] [DecidableEq α] : DecidableEq (Except ε α) := fun a b =>
  match a, b with
  | .error e, .error f =>
      if h : e = f then .isTrue (by rw [h])
      else .isFalse (by intro hc; cases hc; exact h rfl)
  | .error _, .ok _ => .isFalse (by intro hc; cases hc)
  | .ok _, .error _ => .isFalse (by intro hc; cases hc)
  | .ok x, .ok y =>
      if h : x = y then .isTrue (by rw [h])
      else .isFalse (by intro hc; cases hc; exact h rfl)

/-- The value the actor pushes down a command's oneshot reply channel:
`()` for register/unregister, a `Result<(), MessageSenderError>` for send. -/
inductive Reply where
  | ack
  | sendResult (r : Except MessageSenderError Unit)
deriving DecidableEq, Repr

/-- The `Command::SendMessage` arm of `MessageSenderActor::process`
(infrastructure.rs lines 97-125). `serialize` stands for
`serde_json::to_string`. Returns the updated map, the reply sent on
`result_sender`, and whether the arm executed `return` (exiting the loop):
- no sink for the participant: reply `Err(MessageSenderError(...))`, `return`;
- serialization fails: reply `Err(MessageSenderError(...))`, `return`;
- write succeeds: reply `Ok(())`, continue;
- write fails: remove the mapping, reply `Err(ParticipantDisconnected)`,
  continue. -/
def sendMessageStep {M : Type} (serialize : M → Except String String)
    (map : ActorMap) (participant : Participant) (message : M) :
    ActorMap × Except MessageSenderError Unit × Bool :=
  match map participant with
  | none =>
      (map,
       .error (.MessageSenderError
         ("sink not found for participant: " ++ toString participant)),
       true)
  | some sink =>
      match serialize message with
      | .error e => (map, .error (.MessageSenderError e), true)
      | .ok msg_json =>
          match sinkSend sink msg_json with
          | .ok _ => (map, .ok (), false)
          | .error e =>
              (mapRemove map participant,
               .error (.ParticipantDisconnected participant e),
               false)

/-- One iteration of the `match command` in `MessageSenderActor::process`:
updated map, reply sent, and whether the arm exits the loop via `return`. -/
def MessageSenderActor.processOne {M : Type}
    (serialize : M → Except String String) (map : ActorMap) :
    Command M → ActorMap × Reply × Bool
  | .RegisterParticipant participant ws_sender =>
      (mapInsert map participant ws_sender, .ack, false)
  | .UnregisterParticipant participant =>
      (mapRemove map participant, .ack, false)
  | .SendMessage participant message =>
      let step := sendMessageStep serialize map participant message
      (step.1, .sendResult step.2.1, step.2.2)

/-- `MessageSenderActor::process` (infrastructure.rs): `while let
Some(command) = self.receiver.recv().await { ... }` draining the queue. The
queue contents are the list of commands; the result pairs the final map with
one entry per queued command: `some reply` if the actor answered it, `none`
if the actor dropped the command (and its oneshot sender) unanswered — which
happens to every command still queued when an arm executes `return`. -/
def MessageSenderActor.process {M : Type}
    (serialize : M → Except String String) (map : ActorMap) :
    List (Command M) → ActorMap × List (Option Reply)
  | [] => (map, [])
  | command :: rest =>
      let step := MessageSenderActor.processOne serialize map command
      if step.2.2 then
        (step.1, some step.2.1 :: rest.map (fun _ => none))
      else
        let tail := MessageSenderActor.process serialize step.1 rest
        (tail.1, some step.2.1 :: tail.2)

/-! ## infrastructure.rs: MessageSenderProxy -/

/-- The outcome of a Rust expression that either panics or produces a value. -/
inductive PanicOr (α : Type) where
  | panicked (msg : String)
  | value (v : α)
deriving DecidableEq, Repr

/-- `result_receiver.await.unwrap_or_else(|_| panic!("Failed to receive
result from actor"))` — the shared tail of `MessageSenderProxy::register`,
`::unregister` and `::send` (infrastructure.rs lines 150-153, 163-166,
181-184). A oneshot receive yields `some v` if the actor answered and `none`
if the sender was dropped unanswered; in the latter case the proxy panics. -/
def proxyAwait {α : Type} (received : Option α) : PanicOr α :=
  match received with
  | none => .panicked "Failed to receive result from actor"
  | some v => .value v

/-- `MessageSenderProxy::send` as seen by `app::handle_message` when the
actor is live and answers the command: the reply for a single `SendMessage`
command, together with the actor map it leaves behind. (The enqueue itself
cannot fail while the actor holds its receiver.) -/
def actorSend {M : Type} (serialize : M → Except String String)
    (map : ActorMap) (participant : Participant) (message : M) :
    ActorMap × Except MessageSenderError Unit :=
  let step := sendMessageStep serialize map participant message
  (step.1, step.2.1)

/-! ## app.rs -/

/-- `pub enum RoomAppError` (app.rs). `RoomRepositoryError` is modelled with
a `String` payload; `MessageSenderError` keeps the structured sender error
it boxes. -/
inductive RoomAppError where
  | RoomNotFound (room_id : RoomId)
  | RoomDomain (e : RoomError)
  | RoomRepositoryError (e : String)
  | MessageSenderError (e : MessageSenderError)
deriving DecidableEq, Repr

/-- `app::list_rooms` (app.rs): `room_repo.get_all()`. With the in-memory
repo the operation never errs; the map's value list is taken as given. -/
def list_rooms (rooms : List Room) : Except RoomAppError (List Room) :=
  .ok rooms

/-- `app::open_room` (app.rs): builds `Room::new(name, capacity,
participant)` and saves it. `freshId`/`now` stand for the `Uuid::new_v4()` /
`Utc::now()` calls inside `Room::new`. Returns the updated repository state
and the saved room. -/
def open_room (s : RepoState) (freshId : RoomId) (now : Nat) (name : String)
    (capacity : Nat) (participant : Participant) :
    RepoState × Except RoomAppError Room :=
  let room := Room.new freshId now name capacity participant
  let saved := repoSave s room
  (saved.1, .ok saved.2)

/-- `app::close_room` (app.rs): get the room (RoomNotFound if absent), run
`Room::close` (NotOwner propagates via `RoomAppError::RoomDomain`), then
delete from the repo. -/
def close_room (s : RepoState) (room_id : RoomId) (participant : Participant) :
    RepoState × Except RoomAppError Unit :=
  match repoGet s room_id with
  | none => (s, .error (.RoomNotFound room_id))
  | some room =>
      match room.close participant with
      | .error e => (s, .error (.RoomDomain e))
      | .ok _ => (repoDelete s room_id, .ok ())

/-- `app::join_room` (app.rs): get the room, `Room::join` on the clone,
save the mutated clone back. -/
def join_room (s : RepoState) (room_id : RoomId) (participant : Participant) :
    RepoState × Except RoomAppError Unit :=
  match repoGet s room_id with
  | none => (s, .error (.RoomNotFound room_id))
  | some room =>
      match room.join participant with
      | .error e => (s, .error (.RoomDomain e))
      | .ok room2 => ((repoSave s room2).1, .ok ())

/-- `app::leave_room` (app.rs): get the room (a clone, see
`InMemoryRoomRepo::get`), call `Room::leave` on the clone, and return `Ok(())`
— the function never calls `save`, so the repository state is returned
unchanged and the mutated clone (`Room.leave room participant_id`) is
dropped. -/
def leave_room (s : RepoState) (room_id : RoomId) (participant_id : Participant) :
    RepoState × Except RoomAppError Unit :=
  match repoGet s room_id with
  | none => (s, .error (.RoomNotFound room_id))
  | some room =>
      let _dropped := Room.leave room participant_id
      (s, .ok ())

/-- The `for (to, outbound_msg) in responses` loop of `app::handle_message`
(app.rs lines 91-105), generic over the sender exactly as the Rust function
is generic over `impl MessageSender` (`σ` is the sender's hidden state):
- `Ok`: next delivery;
- `Err(ParticipantDisconnected(p, _))`: `leave_room(room_repo, room_id, p)`,
  `?`-propagating its error, then next delivery;
- `Err(MessageSenderError(_))`: return `RoomAppError::MessageSenderError(e)`
  aborting the remaining deliveries. -/
def deliverAll {σ Out : Type}
    (send : σ → Participant → Out → σ × Except MessageSenderError Unit)
    (room_id : RoomId) :
    List (Participant × Out) → RepoState → σ →
    (RepoState × σ) × Except RoomAppError Unit
  | [], s, ss => ((s, ss), .ok ())
  | (to_, outbound_msg) :: rest, s, ss =>
      let sent := send ss to_ outbound_msg
      match sent.2 with
      | .ok _ => deliverAll send room_id rest s sent.1
      | .error (.ParticipantDisconnected p _src) =>
          let left := leave_room s room_id p
          match left.2 with
          | .ok _ => deliverAll send room_id rest left.1 sent.1
          | .error e => ((left.1, sent.1), .error e)
      | .error (.MessageSenderError e) =>
          ((s, sent.1), .error (.MessageSenderError (.MessageSenderError e)))

/-- `app::handle_message` (app.rs): load the room (RoomNotFound if absent),
run `Room::handle_message`, then deliver each `(to, outbound_msg)` pair via
the sender, folding `ParticipantDisconnected` into `leave_room`. Returns the
final repository state, the final sender state, and the result. -/
def handle_message {σ In Out : Type}
    (send : σ → Participant → Out → σ × Except MessageSenderError Unit)
    (msg_handler : Room → Participant → In → Except String (MessageResponse Out))
    (s : RepoState) (ss : σ) (room_id : RoomId) (participant : Participant)
    (inbound_msg : In) : (RepoState × σ) × Except RoomAppError Unit :=
  match repoGet s room_id with
  | none => ((s, ss), .error (.RoomNotFound room_id))
  | some room =>
      match room.handle_message msg_handler participant inbound_msg with
      | .error e => ((s, ss), .error (.RoomDomain e))
      | .ok responses => deliverAll send room_id responses s ss

/-! ## Operation sequences on a room (for the capacity invariant) -/

/-- A join or leave operation, as applied to one `Room` value. -/
inductive RoomOp where
  | join (participant : Participant)
  | leave (participant : Participant)
deriving DecidableEq, Repr

/-- Apply one operation the way the Rust entity mutates itself: a failing
`join` (RoomFull) leaves the room unchanged, `leave` always applies. -/
def applyOp (r : Room) : RoomOp → Room
  | .join p =>
      match r.join p with
      | .ok r2 => r2
      | .error _ => r
  | .leave p => r.leave p

/-- Apply a sequence of operations left to right. -/
def applyOps (r : Room) (ops : List RoomOp) : Room :=
  ops.foldl applyOp r

theorem applyOp_capacity (r : Room) (op : RoomOp) :
    (applyOp r op).capacity = r.capacity := by
  cases op with
  | join p =>
      by_cases hf : r.is_full = true
      · simp [applyOp, Room.join, hf]
      · simp [applyOp, Room.join, hf]
  | leave p => rfl

theorem applyOp_length_le (r : Room) (op : RoomOp)
    (h : r.participants.length ≤ r.capacity) :
    (applyOp r op).participants.length ≤ r.capacity := by
  cases op with
  | join p =>
      by_cases hf : r.is_full = true
      · simp [applyOp, Room.join, hf]
        exact h
      · have hlt : r.participants.length < r.capacity := by
          simp [Room.is_full] at hf
          exact hf
        simp [applyOp, Room.join, hf]
        omega
  | leave p =>
      simp only [applyOp, Room.leave]
      exact le_trans (List.length_filter_le _ _) h

theorem applyOps_length_le (ops : List RoomOp) (r : Room)
    (h : r.participants.length ≤ r.capacity) :
    (applyOps r ops).participants.length ≤ r.capacity := by
  induction ops generalizing r with
  | nil => exact h
  | cons op rest ih =>
      have h1 := applyOp_length_le r op h
      have h2 := applyOp_capacity r op
      have h3 := ih (applyOp r op) (by rw [h2]; exact h1)
      rw [h2] at h3
      simpa [applyOps, List.foldl] using h3

/-- C4: starting from an empty room, every sequence of join/leave operations
keeps `participants.length ≤ capacity` after each operation (every prefix of
a sequence is itself a sequence, so the bound after each step is the bound
after an arbitrary sequence); and `join` on a room whose participant count
has reached capacity fails with `RoomFull` and leaves the room unchanged. -/
theorem C4_capacity_invariant :
    (∀ (start : Room) (ops : List RoomOp), start.participants = [] →
        (applyOps start ops).participants.length ≤ start.capacity) ∧
    (∀ (r : Room) (p : Participant), r.participants.length ≥ r.capacity →
        r.join p = .error (.RoomFull r.id) ∧ applyOp r (.join p) = r) := by
  constructor
  · intro start ops hempty
    apply applyOps_length_le
    simp [hempty]
  · intro r p hfull
    have hf : r.is_full = true := by
      simp [Room.is_full]
      exact hfull
    constructor
    · simp [Room.join, hf]
    · simp [applyOp, Room.join, hf]

/-- Witness for C4 at concrete inputs: a capacity-2 room stays within bound
under joins and a leave, and a full capacity-1 room rejects a join. -/
theorem C4_capacity_invariant_witness :
    (applyOps (Room.new 1 0 "x" 2 5)
        [RoomOp.join 7, RoomOp.join 8, RoomOp.join 9, RoomOp.leave 7]
      ).participants.length ≤ 2 ∧
    (Room.mk 1 "x" [7] 1 0 5).join 8 = .error (.RoomFull 1) := by
  constructor
  · exact C4_capacity_invariant.1 (Room.new 1 0 "x" 2 5)
      [RoomOp.join 7, RoomOp.join 8, RoomOp.join 9, RoomOp.leave 7] rfl
  · exact (C4_capacity_invariant.2 (Room.mk 1 "x" [7] 1 0 5) 8 (by decide)).1

/-- C9: `open_room` accepts capacity zero (it returns a `Room` rather than
failing), and every join on a capacity-zero room fails with `RoomFull`. -/
theorem C9_zero_capacity :
    (∀ (s : RepoState) (freshId : RoomId) (now : Nat) (name : String)
        (owner : Participant), ∃ r : Room,
        (open_room s freshId now name 0 owner).2 = .ok r ∧ r.capacity = 0) ∧
    (∀ (r : Room) (p : Participant), r.capacity = 0 →
        r.join p = .error (.RoomFull r.id)) := by
  constructor
  · intro s freshId now name owner
    exact ⟨Room.new freshId now name 0 owner, rfl, rfl⟩
  · intro r p hcap
    have hf : r.is_full = true := by
      simp [Room.is_full, hcap]
    simp [Room.join, hf]

/-- Witness for C9 at concrete inputs. -/
theorem C9_zero_capacity_witness :
    (∃ r : Room,
        (open_room InMemoryRoomRepo.new 3 0 "z" 0 5).2 = .ok r ∧
        r.capacity = 0) ∧
    (Room.mk 2 "y" [] 0 0 5).join 7 = .error (.RoomFull 2) :=
  ⟨C9_zero_capacity.1 InMemoryRoomRepo.new 3 0 "z" 5,
   C9_zero_capacity.2 (Room.mk 2 "y" [] 0 0 5) 7 rfl⟩

/-- C5: for every stored room, `close_room` by a non-owner fails with
`NotOwner` and leaves the room in the registry; `close_room` by the owner
succeeds and a subsequent `get` returns absent. -/
theorem C5_close_room_ownership :
    ∀ (s : RepoState) (room_id : RoomId) (requester : Participant) (room : Room),
      repoGet s room_id = some room →
      (room.created_by ≠ requester →
          close_room s room_id requester =
            (s, .error (.RoomDomain (.NotOwner room.id requester))) ∧
          repoGet (close_room s room_id requester).1 room_id = some room) ∧
      (room.created_by = requester →
          (close_room s room_id requester).2 = .ok () ∧
          repoGet (close_room s room_id requester).1 room_id = none) := by
  intro s room_id requester room hget
  constructor
  · intro hne
    have heq : close_room s room_id requester =
        (s, .error (.RoomDomain (.NotOwner room.id requester))) := by
      simp [close_room, hget, Room.close, hne]
    exact ⟨heq, by rw [heq]; exact hget⟩
  · intro hown
    have heq : close_room s room_id requester = (repoDelete s room_id, .ok ()) := by
      simp [close_room, hget, Room.close, hown]
    constructor
    · rw [heq]
    · rw [heq]
      simp [repoGet, repoDelete]

/-- Witness for C5: a registry holding one room owned by 5; requester 6 is
rejected with `NotOwner` and the room survives, requester 5 succeeds and the
room is gone. -/
theorem C5_close_room_ownership_witness :
    ((close_room (fun k => if k = 1 then some (Room.mk 1 "x" [] 2 0 5) else none)
        1 6).2 = .error (.RoomDomain (.NotOwner 1 6)) ∧
      repoGet (close_room
        (fun k => if k = 1 then some (Room.mk 1 "x" [] 2 0 5) else none) 1 6).1 1 =
        some (Room.mk 1 "x" [] 2 0 5)) ∧
    ((close_room (fun k => if k = 1 then some (Room.mk 1 "x" [] 2 0 5) else none)
        1 5).2 = .ok () ∧
      repoGet (close_room
        (fun k => if k = 1 then some (Room.mk 1 "x" [] 2 0 5) else none) 1 5).1 1 =
        none) := by
  constructor
  · have h := (C5_close_room_ownership
      (fun k => if k = 1 then some (Room.mk 1 "x" [] 2 0 5) else none)
      1 6 (Room.mk 1 "x" [] 2 0 5) rfl).1 (by decide)
    exact ⟨by rw [h.1], h.2⟩
  · exact (C5_close_room_ownership
      (fun k => if k = 1 then some (Room.mk 1 "x" [] 2 0 5) else none)
      1 5 (Room.mk 1 "x" [] 2 0 5) rfl).2 rfl

/-- C8: `open_room(name, capacity, owner)` followed by `get` on the created
room's id yields a room with the given name, capacity and owner and an empty
participant list (the owner is not auto-joined). -/
theorem C8_open_room_round_trip :
    ∀ (s : RepoState) (freshId : RoomId) (now : Nat) (name : String)
      (capacity : Nat) (owner : Participant),
      ∃ r : Room,
        (open_room s freshId now name capacity owner).2 = .ok r ∧
        r.name = name ∧ r.capacity = capacity ∧ r.created_by = owner ∧
        r.participants = [] ∧
        repoGet (open_room s freshId now name capacity owner).1 r.id = some r := by
  intro s freshId now name capacity owner
  refine ⟨Room.new freshId now name capacity owner, rfl, rfl, rfl, rfl, rfl, ?_⟩
  simp [open_room, repoGet, repoSave, Room.new]

/-- C6: dispatching from a non-member fails with `NotParticipant` naming the
sender; a `Unicast` decision whose target is not a member fails with
`NotParticipant` naming the target, and in both cases the result is an error,
so no delivery pair is produced. -/
theorem C6_membership_gating :
    ∀ {In Out : Type} (r : Room)
      (h : Room → Participant → In → Except String (MessageResponse Out))
      (from_ : Participant) (msg : In),
      (r.is_participant from_ = false →
          r.handle_message h from_ msg = .error (.NotParticipant r.id from_)) ∧
      (∀ (target : Participant) (m : Out),
          r.is_participant from_ = true →
          h r from_ msg = .ok (.Unicast target m) →
          r.is_participant target = false →
          r.handle_message h from_ msg = .error (.NotParticipant r.id target)) := by
  intro In Out r h from_ msg
  constructor
  · intro hN
    simp [Room.handle_message, hN]
  · intro target m hfrom hdec htarget
    simp [Room.handle_message, hfrom, hdec, htarget]

/-- Witness for C6: room `{10}` with a handler returning `Unicast` to the
non-member 99; sender 11 is rejected as sender, target 99 as target. -/
theorem C6_membership_gating_witness :
    (Room.mk 1 "x" [10] 1 0 5).handle_message
        (fun _ _ (_ : Unit) => .ok (.Unicast 99 (7 : Nat))) 11 () =
      .error (.NotParticipant 1 11) ∧
    (Room.mk 1 "x" [10] 1 0 5).handle_message
        (fun _ _ (_ : Unit) => .ok (.Unicast 99 (7 : Nat))) 10 () =
      .error (.NotParticipant 1 99) := by
  constructor
  · exact (C6_membership_gating (Room.mk 1 "x" [10] 1 0 5)
      (fun _ _ _ => .ok (.Unicast 99 7)) 11 ()).1 (by decide)
  · exact (C6_membership_gating (Room.mk 1 "x" [10] 1 0 5)
      (fun _ _ _ => .ok (.Unicast 99 7)) 10 ()).2 99 7 (by decide) rfl (by decide)

/-- C7: a `Broadcast` decision produces exactly the list of pairs `(p, m)`
for `p` over the room's current participant list — one pair per entry, in
order, all carrying the identical payload, the sender included (the sender
is a member, membership being checked first); a `Void` decision produces no
deliveries. -/
theorem C7_broadcast_fanout :
    ∀ {In Out : Type} (r : Room)
      (h : Room → Participant → In → Except String (MessageResponse Out))
      (from_ : Participant) (msg : In) (m : Out),
      r.is_participant from_ = true →
      (h r from_ msg = .ok (.Broadcast m) →
          r.handle_message h from_ msg =
            .ok (r.participants.map (fun p => (p, m))) ∧
          (r.participants.map (fun p => (p, m))).length =
            r.participants.length ∧
          (∀ pr ∈ r.participants.map (fun p => (p, m)), pr.2 = m) ∧
          (r.participants.map (fun p => (p, m))).map Prod.fst =
            r.participants ∧
          (from_, m) ∈ r.participants.map (fun p => (p, m))) ∧
      (h r from_ msg = .ok .Void → r.handle_message h from_ msg = .ok []) := by
  intro In Out r h from_ msg m hfrom
  constructor
  · intro hdec
    have hmem : from_ ∈ r.participants := by
      have hc := hfrom
      simp only [Room.is_participant] at hc
      simpa using hc
    have hfst : ∀ l : List Participant,
        (l.map (fun p => (p, m))).map Prod.fst = l := by
      intro l
      induction l with
      | nil => rfl
      | cons a t ih => simp [ih]
    refine ⟨?_, by simp, ?_, hfst r.participants, ?_⟩
    · simp [Room.handle_message, hfrom, hdec]
    · intro pr hpr
      rcases List.mem_map.mp hpr with ⟨p, _, hp⟩
      rw [← hp]
    · exact List.mem_map.mpr ⟨from_, hmem, rfl⟩
  · intro hdec
    simp [Room.handle_message, hfrom, hdec]

/-- Witness for C7: room `{10, 11, 12}`, a broadcast from member 10 yields
the three pairs in member order with identical payload, and a void decision
from 10 yields no pairs. -/
theorem C7_broadcast_fanout_witness :
    (Room.mk 1 "x" [10, 11, 12] 3 0 5).handle_message
        (fun _ _ (_ : Unit) => .ok (.Broadcast (7 : Nat))) 10 () =
      .ok [(10, 7), (11, 7), (12, 7)] ∧
    (Room.mk 1 "x" [10, 11, 12] 3 0 5).handle_message
        (fun _ _ (_ : Unit) => .ok (MessageResponse.Void (M := Nat))) 10 () =
      .ok [] := by
  constructor
  · exact ((C7_broadcast_fanout (Room.mk 1 "x" [10, 11, 12] 3 0 5)
      (fun _ _ _ => .ok (.Broadcast 7)) 10 () 7 (by decide)).1 rfl).1
  · exact (C7_broadcast_fanout (Room.mk 1 "x" [10, 11, 12] 3 0 5)
      (fun _ _ _ => .ok MessageResponse.Void) 10 () 7 (by decide)).2 rfl

/-! ## Error kinds of the sender (C3) -/

/-- The variant (the "error kind" a caller can match on) of a
`MessageSenderError` value: the enum in domain.rs has exactly these two. -/
inductive SenderErrorKind where
  | participantDisconnected
  | messageSenderError
deriving DecidableEq, Repr

/-- The constructor tag of a `MessageSenderError`, i.e. the only thing a
caller can distinguish by matching (the boxed payload is an opaque
`dyn Error`). -/
def senderErrorKind : MessageSenderError → SenderErrorKind
  | .ParticipantDisconnected _ _ => .participantDisconnected
  | .MessageSenderError _ => .messageSenderError

/-- C3 counterexample: at concrete inputs, the error for a send to an
unregistered participant and the error for a send whose payload fails to
serialize are built with the same `MessageSenderError::MessageSenderError`
constructor — the same kind — so they are not two mutually distinct kinds a
caller could tell apart, contrary to the claim. -/
theorem C3_kinds_not_distinct :
    (sendMessageStep (fun n : Nat => .ok (toString n)) ActorMap.empty 0 42).2.1 =
      .error (.MessageSenderError "sink not found for participant: 0") ∧
    (sendMessageStep (fun _ : Nat => .error "serde json error")
        (mapInsert ActorMap.empty 0 (Sink.mk true)) 0 42).2.1 =
      .error (.MessageSenderError "serde json error") ∧
    senderErrorKind
        (.MessageSenderError "sink not found for participant: 0") =
      senderErrorKind (.MessageSenderError "serde json error") :=
  ⟨rfl, rfl, rfl⟩

/-- C3 amended: a send to an unregistered participant fails with the generic
`MessageSenderError` kind (and leaves the map unchanged); a send whose
payload fails to serialize fails with the same generic kind, without
removing the participant's mapping; `ParticipantDisconnected` is the only
kind distinct from it, so a caller can distinguish disconnection from the
other two failures but not those two from each other. -/
theorem C3_send_error_kinds :
    ∀ {M : Type} (serialize : M → Except String String) (map : ActorMap)
      (p : Participant) (m : M),
      (map p = none →
          (sendMessageStep serialize map p m).2.1 =
            .error (.MessageSenderError
              ("sink not found for participant: " ++ toString p)) ∧
          (sendMessageStep serialize map p m).1 = map) ∧
      (∀ (sink : Sink) (e : String), map p = some sink →
          serialize m = .error e →
          (sendMessageStep serialize map p m).2.1 =
            .error (.MessageSenderError e) ∧
          (sendMessageStep serialize map p m).1 = map) ∧
      (∀ (q : Participant) (src e : String),
          senderErrorKind (.ParticipantDisconnected q src) ≠
            senderErrorKind (.MessageSenderError e)) := by
  intro M serialize map p m
  refine ⟨?_, ?_, ?_⟩
  · intro hnone
    constructor <;> simp [sendMessageStep, hnone]
  · intro sink e hsink hser
    constructor <;> simp [sendMessageStep, hsink, hser]
  · intro q src e
    simp [senderErrorKind]

/-- Witness for C3 (amended) at concrete inputs. -/
theorem C3_send_error_kinds_witness :
    ((sendMessageStep (fun n : Nat => .ok (toString n)) ActorMap.empty 7 42).2.1 =
      .error (.MessageSenderError "sink not found for participant: 7")) ∧
    ((sendMessageStep (fun _ : Nat => .error "key must be a string")
        (mapInsert ActorMap.empty 7 (Sink.mk true)) 7 42).1 =
      mapInsert ActorMap.empty 7 (Sink.mk true)) ∧
    senderErrorKind (.ParticipantDisconnected 7 "gone") ≠
      senderErrorKind (.MessageSenderError "key must be a string") := by
  refine ⟨?_, ?_, ?_⟩
  · exact ((C3_send_error_kinds (fun n : Nat => .ok (toString n))
      ActorMap.empty 7 42).1 rfl).1
  · exact ((C3_send_error_kinds (fun _ : Nat => .error "key must be a string")
      (mapInsert ActorMap.empty 7 (Sink.mk true)) 7 42).2.1
      (Sink.mk true) "key must be a string" (by simp [mapInsert]) rfl).2
  · exact (C3_send_error_kinds (fun n : Nat => .ok (toString n))
      ActorMap.empty 7 42).2.2 7 "gone" "key must be a string"

/-- C2: evaluated at a concrete queue, the `return` in the `SendMessage` arm
(sink not found) makes the loop exit with the second command still queued:
that command gets no reply (its oneshot sender is dropped) and its effect
(registering participant 1) never happens, refuting the claim that only
queue closure ends the loop. The serialization-failure arm `return`s the
same way. -/
theorem C2_actor_loop_exits_early :
    (MessageSenderActor.process (fun n : Nat => .ok (toString n)) ActorMap.empty
        [Command.SendMessage 0 42,
         Command.RegisterParticipant 1 (Sink.mk true)]).2 =
      [some (.sendResult (.error
          (.MessageSenderError "sink not found for participant: 0"))),
       none] ∧
    (MessageSenderActor.process (fun n : Nat => .ok (toString n)) ActorMap.empty
        [Command.SendMessage 0 42,
         Command.RegisterParticipant 1 (Sink.mk true)]).1 1 = none :=
  ⟨rfl, rfl⟩

/-! ## The disconnect-eviction scenario (C1) -/

/-- Registry holding one room `{A := 10, B := 11}`, capacity 2, owned by A. -/
def disconnectRepo : RepoState :=
  fun k => if k = 1 then some (Room.mk 1 "x" [10, 11] 2 0 10) else none

/-- Actor map for the scenario: A's peer is live, B's peer is gone, so the
write to B's sink fails and the actor reports `ParticipantDisconnected`. -/
def disconnectActorMap : ActorMap :=
  fun q =>
    if q = 10 then some (Sink.mk true)
    else if q = 11 then some (Sink.mk false) else none

/-- One dispatch of a broadcast from A in that scenario, driving the actor's
send path with the identity serializer: the final repository state, the
final actor map, and the result. -/
def disconnectDispatch : (RepoState × ActorMap) × Except RoomAppError Unit :=
  handle_message (actorSend (fun s : String => .ok s))
    (fun _ _ (_ : Unit) => .ok (.Broadcast "hello"))
    disconnectRepo disconnectActorMap 1 10 ()

/-- C1 evaluated at the failing input: the dispatch completes Ok and the
actor's map drops B (proof that delivery to B did fail with the
disconnected-peer signal and the `ParticipantDisconnected` arm ran), yet the
Room Registry still stores B in the room's membership — `leave_room` mutated
a clone and never saved it — and a subsequent broadcast dispatch in that
room again produces a delivery pair for B, contrary to the claim. -/
theorem C1_disconnected_member_not_evicted :
    disconnectDispatch.2 = .ok () ∧
    disconnectDispatch.1.2 11 = none ∧
    repoGet disconnectDispatch.1.1 1 = some (Room.mk 1 "x" [10, 11] 2 0 10) ∧
    (Room.mk 1 "x" [10, 11] 2 0 10).handle_message
        (fun _ _ (_ : Unit) => .ok (.Broadcast "again")) 10 () =
      .ok [(10, "again"), (11, "again")] :=
  ⟨rfl, rfl, rfl, rfl⟩

/-- C10: a command that makes an arm of the actor loop `return` leaves every
later queued command unanswered (its oneshot reply sender is dropped), and a
Proxy operation awaiting a dropped reply evaluates to a panic, never to a
returned value — in particular never to an `Err` the caller could handle. -/
theorem C10_dropped_reply_panics :
    (∀ {M : Type} (serialize : M → Except String String) (map : ActorMap)
        (c : Command M) (rest : List (Command M)),
        (MessageSenderActor.processOne serialize map c).2.2 = true →
        (MessageSenderActor.process serialize map (c :: rest)).2 =
          some (MessageSenderActor.processOne serialize map c).2.1 ::
            rest.map (fun _ => none)) ∧
    (∀ α : Type, proxyAwait (α := α) none =
        .panicked "Failed to receive result from actor") ∧
    (∀ v : Except MessageSenderError Unit,
        proxyAwait (α := Except MessageSenderError Unit) none ≠ .value v) := by
  refine ⟨?_, ?_, ?_⟩
  · intro M serialize map c rest hexit
    simp [MessageSenderActor.process, hexit]
  · intro α
    rfl
  · intro v hv
    simp [proxyAwait] at hv

/-- Witness for C10: a send for an unregistered participant exits the loop,
the queued unregister behind it gets no reply, and the proxy's await of a
dropped reply panics. -/
theorem C10_dropped_reply_panics_witness :
    (MessageSenderActor.process (fun n : Nat => .ok (toString n)) ActorMap.empty
        [Command.SendMessage 3 42, Command.UnregisterParticipant 4]).2 =
      [some (.sendResult (.error
          (.MessageSenderError "sink not found for participant: 3"))),
       none] ∧
    proxyAwait (α := Unit) none =
      .panicked "Failed to receive result from actor" := by
  constructor
  · have h := C10_dropped_reply_panics.1 (fun n : Nat => .ok (toString n))
      ActorMap.empty (Command.SendMessage 3 42)
      [Command.UnregisterParticipant 4] rfl
    simpa using h
  · exact C10_dropped_reply_panics.2.1 Unit
